import Mathlib

/-!
Verification of the PSX SPU reverb plugin (move-anything-psxverb).

The development shallowly embeds the two C variants of the plugin:
the global-state v1 engine in `src/dsp/psxverb.c` and the instance-based
v2 engine (`v2_*` functions).  C `float` arithmetic is modelled by exact
rational arithmetic over `ℚ`; C integer casts and saturation are modelled
explicitly on `ℤ`/`ℕ`.  The circular-buffer index `(base + offset) & mask`
is modelled with `Nat.land` after reducing the 32-bit unsigned sum
modulo `2 ^ 32`, exactly as the C code computes it.
-/

/-- Truncation of a rational toward zero, the semantics of a C
`(int32_t)` cast applied to a float value. -/
def ratTrunc (q : ℚ) : ℤ :=
  if 0 ≤ q then ⌊q⌋ else ⌈q⌉

/-- Saturation to the signed 16-bit range, as in `workarea_write_relative`:
first the `> 32767` test, then the `< -32768` test. -/
def satInt16 (v : ℤ) : ℤ :=
  if v > 32767 then 32767 else if v < -32768 then -32768 else v

/-- `clamp_f` from the C source: clamp a value to `[lo, hi]`. -/
def clampF (v lo hi : ℚ) : ℚ :=
  if v < lo then lo else if v > hi then hi else v

/-- `abs_f` from the C source. -/
def absF (v : ℚ) : ℚ :=
  if v < 0 then -v else v

/-- `max_f` from the C source. -/
def maxF (a b : ℚ) : ℚ :=
  if a > b then a else b

/-- `coeff_to_float` from the C source: interpret a signed 16-bit SPU
register value as a coefficient in `[-1, 1)`. -/
def coeffToFloat (c : ℤ) : ℚ :=
  (c : ℚ) / 32768

/-- `next_pow2` from the C source, on `uint32_t`: decrement, smear the
high bit right with shifted ors, increment.  All steps are taken modulo
`2 ^ 32` exactly as the 32-bit unsigned arithmetic does. -/
def nextPow2 (v0 : ℕ) : ℕ :=
  let v1 := (v0 + (2 ^ 32 - 1)) % 2 ^ 32
  let v2 := v1 ||| (v1 >>> 1)
  let v3 := v2 ||| (v2 >>> 2)
  let v4 := v3 ||| (v3 >>> 4)
  let v5 := v4 ||| (v4 >>> 8)
  let v6 := v5 ||| (v5 >>> 16)
  (v6 + 1) % 2 ^ 32

/-- A natural number is a power of two (with exponent at most 32, enough
for every `uint32_t` quantity in the program). -/
def isPow2 (n : ℕ) : Prop :=
  ∃ k : Fin 33, n = 2 ^ (k : ℕ)

instance (n : ℕ) : Decidable (isPow2 n) := by
  unfold isPow2; infer_instance

/-- Rounding to 4 decimal digits, modelling the `%.4f` formatting used by
`v2_get_param` for the "state" JSON object (round to nearest). -/
def format4 (q : ℚ) : ℚ :=
  (round (q * 10000) : ℚ) / 10000

/- ==========================================================================
   Halfband 39-tap FIR filter (`halfband_t`, `halfband_decimate`,
   `halfband_interpolate`)
   ========================================================================== -/

/-- `g_hb_coeffs`: the 39 halfband FIR coefficients, exact decimal values
from the source. -/
def gHbCoeffs : List ℚ :=
  [-0.000275135, 0, -0.001467466, 0, -0.004356503, 0, -0.009765625, 0,
   -0.018493652, 0, -0.031494141, 0, -0.050598145, 0, -0.079833984, 0,
   -0.130859375, 0, -0.281494141, 0.632812500, -0.281494141, 0,
   -0.130859375, 0, -0.079833984, 0, -0.050598145, 0, -0.031494141, 0,
   -0.018493652, 0, -0.009765625, 0, -0.004356503, 0, -0.001467466, 0,
   -0.000275135]

/-- `g_hb_phase0`: the 20 even-indexed (phase-0) polyphase coefficients. -/
def gHbPhase0 : List ℚ :=
  [-0.000275135, -0.001467466, -0.004356503, -0.009765625,
   -0.018493652, -0.031494141, -0.050598145, -0.079833984,
   -0.130859375, -0.281494141, 0.632812500, -0.281494141,
   -0.130859375, -0.079833984, -0.050598145, -0.031494141,
   -0.018493652, -0.009765625, -0.004356503, -0.001467466]

/-- `g_hb_phase1`: the 19 odd-indexed (phase-1) polyphase coefficients,
all exactly zero for a halfband filter. -/
def gHbPhase1 : List ℚ :=
  [0, 0, 0, 0, 0, 0, 0, 0, 0, 0, 0, 0, 0, 0, 0, 0, 0, 0, 0]

/-- `halfband_t`: a 64-slot history ring (indexed modulo 64) and a write
cursor that is always kept in `[0, 64)`. -/
structure Halfband where
  state : ℕ → ℚ
  pos : ℕ

/-- `halfband_init`: zeroed history, cursor 0. -/
def hbInit : Halfband :=
  { state := fun _ => 0, pos := 0 }

/-- Store a sample at the cursor position of the history ring. -/
def hbStore (s : ℕ → ℚ) (p : ℕ) (x : ℚ) : ℕ → ℚ :=
  fun j => if j = p then x else s j

/-- The convolution loop shared by decimation and interpolation: for each
coefficient, step the index back by one (`(idx - 1) & 63`, written here as
`(idx + 63) % 64`) and accumulate `coeff * state[idx]`. -/
def convolve (s : ℕ → ℚ) : List ℚ → ℕ → ℚ
  | [], _ => 0
  | c :: cs, idx =>
      let j := (idx + 63) % 64
      c * s j + convolve s cs j

/-- `halfband_decimate`: push two input samples, then convolve all 39
taps.  Returns the output sample and the new filter state. -/
def hbDecimate (hb : Halfband) (x0 x1 : ℚ) : ℚ × Halfband :=
  let s1 := hbStore hb.state hb.pos x0
  let p1 := (hb.pos + 1) % 64
  let s2 := hbStore s1 p1 x1
  let p2 := (p1 + 1) % 64
  (convolve s2 gHbCoeffs p2, { state := s2, pos := p2 })

/-- `halfband_interpolate`: push the input sample, convolve the phase-0
taps, push a zero-stuffed sample, convolve the phase-1 taps, and scale
both sums by 2.  Returns `(out_s0, out_s1, new state)`. -/
def hbInterpolate (hb : Halfband) (inTick : ℚ) : ℚ × ℚ × Halfband :=
  let s1 := hbStore hb.state hb.pos inTick
  let p1 := (hb.pos + 1) % 64
  let sum0 := convolve s1 gHbPhase0 p1
  let s2 := hbStore s1 p1 0
  let p2 := (p1 + 1) % 64
  let sum1 := convolve s2 gHbPhase1 p2
  (sum0 * 2, sum1 * 2, { state := s2, pos := p2 })

/- ==========================================================================
   Work Area (`workarea_t`) - SPU RAM emulation
   ========================================================================== -/

/-- `workarea_t`: circular 16-bit buffer (entries kept as `ℤ`, always in
the int16 range by construction), a size mask and a base cursor. -/
structure WorkArea where
  buf : ℕ → ℤ
  size_mask : ℕ
  base : ℕ

/-- The index computation `(wa->base + offset) & wa->size_mask` of the C
source: the signed offset is added to the unsigned base in 32-bit
unsigned arithmetic, then masked. -/
def waIndex (wa : WorkArea) (offset : ℤ) : ℕ :=
  ((((wa.base : ℤ) + offset) % 2 ^ 32).toNat) &&& wa.size_mask

/-- `workarea_read_relative`: read the int16 sample at the relative
offset and scale by `kInt16ToFloat = 1/32768`. -/
def workareaReadRelative (wa : WorkArea) (offset : ℤ) : ℚ :=
  (wa.buf (waIndex wa offset) : ℚ) * (1 / 32768)

/-- `workarea_write_relative`: scale by `kFloatToInt16 = 32768`, truncate
toward zero, saturate to `[-32768, 32767]`, and store. -/
def workareaWriteRelative (wa : WorkArea) (offset : ℤ) (value : ℚ) : WorkArea :=
  let valInt := satInt16 (ratTrunc (value * 32768))
  { wa with buf := fun j => if j = waIndex wa offset then valInt else wa.buf j }

/-- `workarea_advance`: advance the base cursor, masked. -/
def workareaAdvance (wa : WorkArea) (n : ℕ) : WorkArea :=
  { wa with base := (wa.base + n) &&& wa.size_mask }

/-- `workarea_init`: point at a zeroed buffer of the given power-of-two
size, mask `size - 1`, base 0. -/
def workareaInit (sizePow2 : ℕ) : WorkArea :=
  { buf := fun _ => 0, size_mask := sizePow2 - 1, base := 0 }

/-- The quantization performed by a write/read round trip through the
Work Area: truncate `value * 32768` toward zero, saturate to int16, and
scale back by `1/32768`. -/
def int16SatQuant (value : ℚ) : ℚ :=
  (satInt16 (ratTrunc (value * 32768)) : ℚ) / 32768

/- ==========================================================================
   PSX preset table (`psx_preset_t`, `g_presets`)
   ========================================================================== -/

/-- `psx_preset_t`: hardware register values of one preset.  Unsigned
16-bit registers (displacements, addresses, `work_size`) are `ℕ`; signed
16-bit volume registers are `ℤ` holding the value after the C
`(int16_t)` cast (hex values at or above `0x8000` are written as
`value - 0x10000`). -/
structure PsxPreset where
  dAPF1 : ℕ
  dAPF2 : ℕ
  vIIR : ℤ
  vCOMB1 : ℤ
  vCOMB2 : ℤ
  vCOMB3 : ℤ
  vCOMB4 : ℤ
  vWALL : ℤ
  vAPF1 : ℤ
  vAPF2 : ℤ
  mLSAME : ℕ
  mRSAME : ℕ
  dLSAME : ℕ
  dRSAME : ℕ
  mLDIFF : ℕ
  mRDIFF : ℕ
  dLDIFF : ℕ
  dRDIFF : ℕ
  mLCOMB1 : ℕ
  mRCOMB1 : ℕ
  mLCOMB2 : ℕ
  mRCOMB2 : ℕ
  mLCOMB3 : ℕ
  mRCOMB3 : ℕ
  mLCOMB4 : ℕ
  mRCOMB4 : ℕ
  mLAPF1 : ℕ
  mRAPF1 : ℕ
  mLAPF2 : ℕ
  mRAPF2 : ℕ
  vLIN : ℤ
  vRIN : ℤ
  vLOUT : ℤ
  vROUT : ℤ
  work_size : ℕ
  name : String
deriving DecidableEq

/-- `g_presets[0]` - Room. -/
def presetRoom : PsxPreset :=
  { dAPF1 := 0x007D, dAPF2 := 0x005B,
    vIIR := 0x6D80, vCOMB1 := 0x54B8, vCOMB2 := 0xBED0 - 0x10000,
    vCOMB3 := 0x0000, vCOMB4 := 0x0000,
    vWALL := 0xBA80 - 0x10000,
    vAPF1 := 0x5800, vAPF2 := 0x5300,
    mLSAME := 0x04D6, mRSAME := 0x0333,
    dLSAME := 0x0334, dRSAME := 0x01B5,
    mLDIFF := 0x0000, mRDIFF := 0x0000,
    dLDIFF := 0x0000, dRDIFF := 0x0000,
    mLCOMB1 := 0x03F0, mRCOMB1 := 0x0227,
    mLCOMB2 := 0x0374, mRCOMB2 := 0x01EF,
    mLCOMB3 := 0x0000, mRCOMB3 := 0x0000,
    mLCOMB4 := 0x0000, mRCOMB4 := 0x0000,
    mLAPF1 := 0x01B4, mRAPF1 := 0x0136,
    mLAPF2 := 0x00B8, mRAPF2 := 0x005C,
    vLIN := 0x8000 - 0x10000, vRIN := 0x8000 - 0x10000,
    vLOUT := 0x8000 - 0x10000, vROUT := 0x8000 - 0x10000,
    work_size := 0x26C0,
    name := "Room" }

/-- `g_presets[1]` - Studio Small. -/
def presetStudioSmall : PsxPreset :=
  { dAPF1 := 0x0033, dAPF2 := 0x0025,
    vIIR := 0x70F0, vCOMB1 := 0x4FA8, vCOMB2 := 0xBCE0 - 0x10000,
    vCOMB3 := 0x4410, vCOMB4 := 0xC0F0 - 0x10000,
    vWALL := 0x9C00 - 0x10000,
    vAPF1 := 0x5280, vAPF2 := 0x4EC0,
    mLSAME := 0x03E4, mRSAME := 0x031B,
    dLSAME := 0x031C, dRSAME := 0x025D,
    mLDIFF := 0x025C, mRDIFF := 0x018E,
    dLDIFF := 0x018F, dRDIFF := 0x00B5,
    mLCOMB1 := 0x03A4, mRCOMB1 := 0x02AF,
    mLCOMB2 := 0x0372, mRCOMB2 := 0x0266,
    mLCOMB3 := 0x022F, mRCOMB3 := 0x0135,
    mLCOMB4 := 0x01D2, mRCOMB4 := 0x00B7,
    mLAPF1 := 0x00B4, mRAPF1 := 0x0080,
    mLAPF2 := 0x004C, mRAPF2 := 0x0026,
    vLIN := 0x8000 - 0x10000, vRIN := 0x8000 - 0x10000,
    vLOUT := 0x8000 - 0x10000, vROUT := 0x8000 - 0x10000,
    work_size := 0x1F40,
    name := "Studio S" }

/-- `g_presets[2]` - Studio Medium. -/
def presetStudioMedium : PsxPreset :=
  { dAPF1 := 0x00B1, dAPF2 := 0x007F,
    vIIR := 0x70F0, vCOMB1 := 0x4FA8, vCOMB2 := 0xBCE0 - 0x10000,
    vCOMB3 := 0x4510, vCOMB4 := 0xBEF0 - 0x10000,
    vWALL := 0xB4C0 - 0x10000,
    vAPF1 := 0x5280, vAPF2 := 0x4EC0,
    mLSAME := 0x0904, mRSAME := 0x076B,
    dLSAME := 0x076C, dRSAME := 0x05ED,
    mLDIFF := 0x05EC, mRDIFF := 0x042E,
    dLDIFF := 0x042F, dRDIFF := 0x0265,
    mLCOMB1 := 0x0824, mRCOMB1 := 0x065F,
    mLCOMB2 := 0x07A2, mRCOMB2 := 0x0616,
    mLCOMB3 := 0x050F, mRCOMB3 := 0x0305,
    mLCOMB4 := 0x0462, mRCOMB4 := 0x02B7,
    mLAPF1 := 0x0264, mRAPF1 := 0x01B2,
    mLAPF2 := 0x0100, mRAPF2 := 0x0080,
    vLIN := 0x8000 - 0x10000, vRIN := 0x8000 - 0x10000,
    vLOUT := 0x8000 - 0x10000, vROUT := 0x8000 - 0x10000,
    work_size := 0x4840,
    name := "Studio M" }

/-- `g_presets[3]` - Studio Large. -/
def presetStudioLarge : PsxPreset :=
  { dAPF1 := 0x00E3, dAPF2 := 0x00A9,
    vIIR := 0x6F60, vCOMB1 := 0x4FA8, vCOMB2 := 0xBCE0 - 0x10000,
    vCOMB3 := 0x4510, vCOMB4 := 0xBEF0 - 0x10000,
    vWALL := 0xA680 - 0x10000,
    vAPF1 := 0x5680, vAPF2 := 0x52C0,
    mLSAME := 0x0DFB, mRSAME := 0x0B58,
    dLSAME := 0x0B59, dRSAME := 0x08DA,
    mLDIFF := 0x08D9, mRDIFF := 0x05E9,
    dLDIFF := 0x05EA, dRDIFF := 0x031D,
    mLCOMB1 := 0x0D09, mRCOMB1 := 0x0A3C,
    mLCOMB2 := 0x0BD9, mRCOMB2 := 0x0973,
    mLCOMB3 := 0x07EC, mRCOMB3 := 0x04B0,
    mLCOMB4 := 0x06EF, mRCOMB4 := 0x03D2,
    mLAPF1 := 0x031C, mRAPF1 := 0x0238,
    mLAPF2 := 0x0154, mRAPF2 := 0x00AA,
    vLIN := 0x8000 - 0x10000, vRIN := 0x8000 - 0x10000,
    vLOUT := 0x8000 - 0x10000, vROUT := 0x8000 - 0x10000,
    work_size := 0x6FE0,
    name := "Studio L" }

/-- `g_presets[4]` - Hall. -/
def presetHall : PsxPreset :=
  { dAPF1 := 0x01A5, dAPF2 := 0x0139,
    vIIR := 0x6000, vCOMB1 := 0x5000, vCOMB2 := 0x4C00,
    vCOMB3 := 0xB800 - 0x10000, vCOMB4 := 0xBC00 - 0x10000,
    vWALL := 0xC000 - 0x10000,
    vAPF1 := 0x6000, vAPF2 := 0x5C00,
    mLSAME := 0x15BA, mRSAME := 0x11BB,
    dLSAME := 0x11C0, dRSAME := 0x0DC3,
    mLDIFF := 0x0DC0, mRDIFF := 0x09C1,
    dLDIFF := 0x09C2, dRDIFF := 0x05C1,
    mLCOMB1 := 0x14C2, mRCOMB1 := 0x10BD,
    mLCOMB2 := 0x11BC, mRCOMB2 := 0x0DC1,
    mLCOMB3 := 0x0BC4, mRCOMB3 := 0x07C1,
    mLCOMB4 := 0x0A00, mRCOMB4 := 0x06CD,
    mLAPF1 := 0x05C0, mRAPF1 := 0x041A,
    mLAPF2 := 0x0274, mRAPF2 := 0x013A,
    vLIN := 0x8000 - 0x10000, vRIN := 0x8000 - 0x10000,
    vLOUT := 0x8000 - 0x10000, vROUT := 0x8000 - 0x10000,
    work_size := 0xADE0,
    name := "Hall" }

/-- `g_presets[5]` - Space Echo. -/
def presetSpaceEcho : PsxPreset :=
  { dAPF1 := 0x033D, dAPF2 := 0x0231,
    vIIR := 0x7E00, vCOMB1 := 0x5000, vCOMB2 := 0xB400 - 0x10000,
    vCOMB3 := 0xB000 - 0x10000, vCOMB4 := 0x4C00,
    vWALL := 0xB000 - 0x10000,
    vAPF1 := 0x6000, vAPF2 := 0x5400,
    mLSAME := 0x1ED6, mRSAME := 0x1A31,
    dLSAME := 0x1A32, dRSAME := 0x15EF,
    mLDIFF := 0x15EE, mRDIFF := 0x1055,
    dLDIFF := 0x1056, dRDIFF := 0x0AE1,
    mLCOMB1 := 0x1D14, mRCOMB1 := 0x183B,
    mLCOMB2 := 0x1BC2, mRCOMB2 := 0x16B2,
    mLCOMB3 := 0x1334, mRCOMB3 := 0x0F2D,
    mLCOMB4 := 0x11F6, mRCOMB4 := 0x0C5D,
    mLAPF1 := 0x0AE0, mRAPF1 := 0x07A2,
    mLAPF2 := 0x0464, mRAPF2 := 0x0232,
    vLIN := 0x8000 - 0x10000, vRIN := 0x8000 - 0x10000,
    vLOUT := 0x8000 - 0x10000, vROUT := 0x8000 - 0x10000,
    work_size := 0xF6C0,
    name := "Space Echo" }

/-- `g_presets`: the six compiled-in presets. -/
def gPresets : Fin 6 → PsxPreset
  | 0 => presetRoom
  | 1 => presetStudioSmall
  | 2 => presetStudioMedium
  | 3 => presetStudioLarge
  | 4 => presetHall
  | 5 => presetSpaceEcho

/- ==========================================================================
   Scaled preset (`scaled_preset_t`, `scale_preset` / `v2_scale_preset`)
   ========================================================================== -/

/-- `scaled_preset_t`: addresses and displacements copied verbatim, volume
registers converted to rational coefficients. -/
structure ScaledPreset where
  dAPF1 : ℕ
  dAPF2 : ℕ
  dLSAME : ℕ
  dRSAME : ℕ
  dLDIFF : ℕ
  dRDIFF : ℕ
  mLSAME : ℕ
  mRSAME : ℕ
  mLDIFF : ℕ
  mRDIFF : ℕ
  mLCOMB1 : ℕ
  mRCOMB1 : ℕ
  mLCOMB2 : ℕ
  mRCOMB2 : ℕ
  mLCOMB3 : ℕ
  mRCOMB3 : ℕ
  mLCOMB4 : ℕ
  mRCOMB4 : ℕ
  mLAPF1 : ℕ
  mRAPF1 : ℕ
  mLAPF2 : ℕ
  mRAPF2 : ℕ
  vIIR_f : ℚ
  vCOMB1_f : ℚ
  vCOMB2_f : ℚ
  vCOMB3_f : ℚ
  vCOMB4_f : ℚ
  vWALL_f : ℚ
  vAPF1_f : ℚ
  vAPF2_f : ℚ
  vLIN_f : ℚ
  vRIN_f : ℚ
  vLOUT_f : ℚ
  vROUT_f : ℚ
deriving DecidableEq

/-- `scale_preset` (v1) and `v2_scale_preset` (v2), whose bodies are
identical: copy offsets and addresses, convert every volume register with
`coeff_to_float`. -/
def scalePreset (src : PsxPreset) : ScaledPreset :=
  { dAPF1 := src.dAPF1, dAPF2 := src.dAPF2,
    dLSAME := src.dLSAME, dRSAME := src.dRSAME,
    dLDIFF := src.dLDIFF, dRDIFF := src.dRDIFF,
    mLSAME := src.mLSAME, mRSAME := src.mRSAME,
    mLDIFF := src.mLDIFF, mRDIFF := src.mRDIFF,
    mLCOMB1 := src.mLCOMB1, mRCOMB1 := src.mRCOMB1,
    mLCOMB2 := src.mLCOMB2, mRCOMB2 := src.mRCOMB2,
    mLCOMB3 := src.mLCOMB3, mRCOMB3 := src.mRCOMB3,
    mLCOMB4 := src.mLCOMB4, mRCOMB4 := src.mRCOMB4,
    mLAPF1 := src.mLAPF1, mRAPF1 := src.mRAPF1,
    mLAPF2 := src.mLAPF2, mRAPF2 := src.mRAPF2,
    vIIR_f := coeffToFloat src.vIIR,
    vCOMB1_f := coeffToFloat src.vCOMB1,
    vCOMB2_f := coeffToFloat src.vCOMB2,
    vCOMB3_f := coeffToFloat src.vCOMB3,
    vCOMB4_f := coeffToFloat src.vCOMB4,
    vWALL_f := coeffToFloat src.vWALL,
    vAPF1_f := coeffToFloat src.vAPF1,
    vAPF2_f := coeffToFloat src.vAPF2,
    vLIN_f := coeffToFloat src.vLIN,
    vRIN_f := coeffToFloat src.vRIN,
    vLOUT_f := coeffToFloat src.vLOUT,
    vROUT_f := coeffToFloat src.vROUT }

/-- An all-zero scaled preset: the contents of `g_base`/`g_current`
before any preset is applied (zero-initialized statics in v1, `calloc`
in `v2_create_instance`). -/
def scaledPresetZero : ScaledPreset :=
  { dAPF1 := 0, dAPF2 := 0, dLSAME := 0, dRSAME := 0, dLDIFF := 0,
    dRDIFF := 0, mLSAME := 0, mRSAME := 0, mLDIFF := 0, mRDIFF := 0,
    mLCOMB1 := 0, mRCOMB1 := 0, mLCOMB2 := 0, mRCOMB2 := 0,
    mLCOMB3 := 0, mRCOMB3 := 0, mLCOMB4 := 0, mRCOMB4 := 0,
    mLAPF1 := 0, mRAPF1 := 0, mLAPF2 := 0, mRAPF2 := 0,
    vIIR_f := 0, vCOMB1_f := 0, vCOMB2_f := 0, vCOMB3_f := 0,
    vCOMB4_f := 0, vWALL_f := 0, vAPF1_f := 0, vAPF2_f := 0,
    vLIN_f := 0, vRIN_f := 0, vLOUT_f := 0, vROUT_f := 0 }

/- ==========================================================================
   v1 engine: global state and operations (psxverb.c)
   ========================================================================== -/

/-- The v1 global state: parameters `g_preset_idx`, `g_decay`, `g_mix`,
`g_input_gain`, `g_reverb_level`, the scaled presets `g_base`/`g_current`
and the work area `g_work`. -/
structure V1State where
  preset_idx : ℤ
  decay : ℚ
  mix : ℚ
  input_gain : ℚ
  reverb_level : ℚ
  base : ScaledPreset
  current : ScaledPreset
  work : WorkArea

/-- `update_decay`: two-segment mapping of the normalized decay onto a
wall-reflection scale factor, then `current.vWALL_f` is the clamped
scaled base coefficient. -/
def v1UpdateDecay (st : V1State) (normDecay : ℚ) : V1State :=
  let base := maxF 1e-5 (absF st.base.vWALL_f)
  let maxScale := clampF (0.99 / base) 0.5 10.0
  let minScale : ℚ := 0.5
  let midScale : ℚ := 1.0
  let midNorm : ℚ := 0.5
  let wallScale :=
    if normDecay ≤ midNorm then
      minScale + (normDecay / midNorm) * (midScale - minScale)
    else
      midScale + ((normDecay - midNorm) / (1 - midNorm)) * (maxScale - midScale)
  let target := st.base.vWALL_f * wallScale
  { st with current := { st.current with vWALL_f := clampF target (-0.995) 0.995 } }

/-- `update_input_gain`: scale `vLIN`/`vRIN` by `gain * 2`. -/
def v1UpdateInputGain (st : V1State) (gain : ℚ) : V1State :=
  let gainScale := gain * 2.0
  { st with current := { st.current with
      vLIN_f := st.base.vLIN_f * gainScale,
      vRIN_f := st.base.vRIN_f * gainScale } }

/-- `update_reverb_level`: scale `vLOUT`/`vROUT` by `level * 4`. -/
def v1UpdateReverbLevel (st : V1State) (level : ℚ) : V1State :=
  let levelScale := level * 4.0
  { st with current := { st.current with
      vLOUT_f := st.base.vLOUT_f * levelScale,
      vROUT_f := st.base.vROUT_f * levelScale } }

/-- The index clamping at the top of the v1 `apply_preset`:
`if (idx < 0) idx = 0; if (idx > 5) idx = 5;`. -/
def v1ClampIdx (idx : ℤ) : ℤ :=
  if idx < 0 then 0 else if idx > 5 then 5 else idx

/-- The clamped v1 preset index is a valid `g_presets` index (kept as a
`def` so that it can be used inside the definitions below). -/
def v1ClampIdx_lt (idx : ℤ) : (v1ClampIdx idx).toNat < 6 := by
  unfold v1ClampIdx; split_ifs <;> omega

/-- The v1 work-area size: `next_pow2(src->work_size / sizeof(int16_t))`,
capped at `WORK_MAX_SIZE = 65536`. -/
def v1WorkSize (p : PsxPreset) : ℕ :=
  let ws := nextPow2 (p.work_size / 2)
  if ws > 65536 then 65536 else ws

/-- The v1 `apply_preset`: clamp the index, scale the preset into
`g_base`, copy it into `g_current`, reinitialize the work area, and
reapply the three live-modulation functions with the current controls. -/
def v1ApplyPreset (st : V1State) (idx : ℤ) : V1State :=
  let j := v1ClampIdx idx
  let p := gPresets ⟨j.toNat, v1ClampIdx_lt idx⟩
  let b := scalePreset p
  let st1 := { st with
    preset_idx := j, base := b, current := b,
    work := workareaInit (v1WorkSize p) }
  let st2 := v1UpdateDecay st1 st1.decay
  let st3 := v1UpdateInputGain st2 st2.input_gain
  v1UpdateReverbLevel st3 st3.reverb_level

/-- The four control keys of the v1 `fx_set_param` that do not change the
preset.  The v1 surface recognizes "level" (not "reverb_level"). -/
inductive V1CtrlKey
  | decay
  | mix
  | inputGain
  | level
deriving DecidableEq

/-- The non-preset branches of the v1 `fx_set_param`: clamp the value to
`[0, 1]`, store the control, and recompute only the derived
coefficients of that control. -/
def v1SetParamCtrl (st : V1State) (k : V1CtrlKey) (v : ℚ) : V1State :=
  match k with
  | .decay =>
      let st1 := { st with decay := clampF v 0 1 }
      v1UpdateDecay st1 st1.decay
  | .mix => { st with mix := clampF v 0 1 }
  | .inputGain =>
      let st1 := { st with input_gain := clampF v 0 1 }
      v1UpdateInputGain st1 st1.input_gain
  | .level =>
      let st1 := { st with reverb_level := clampF v 0 1 }
      v1UpdateReverbLevel st1 st1.reverb_level

/-- The v1 globals at program start: `g_preset_idx = 4`, `g_decay = 0.8`,
`g_mix = 0.35`, `g_input_gain = 0.5`, `g_reverb_level = 0.5`, zeroed
scaled presets and work area. -/
def v1Init : V1State :=
  { preset_idx := 4, decay := 0.8, mix := 0.35,
    input_gain := 0.5, reverb_level := 0.5,
    base := scaledPresetZero, current := scaledPresetZero,
    work := { buf := fun _ => 0, size_mask := 0, base := 0 } }

/-- The v1 state right after `fx_on_load`, which applies the default
preset 4 (Hall). -/
def v1Default : V1State :=
  v1ApplyPreset v1Init 4

/- ==========================================================================
   v2 engine: instance state and operations (`psxverb_instance_t`, v2_*)
   ========================================================================== -/

/-- `psxverb_instance_t`: one full working set per effect instance.  The
`work_buffer` pointer of the C struct is folded into `work.buf`. -/
structure Inst where
  preset_idx : ℤ
  decay : ℚ
  mix : ℚ
  input_gain : ℚ
  reverb_level : ℚ
  current : ScaledPreset
  base : ScaledPreset
  work : WorkArea
  down_l : Halfband
  down_r : Halfband
  up_l : Halfband
  up_r : Halfband

/-- `v2_update_decay`: the v2 decay update is a single multiplication,
`current.vWALL_f = base.vWALL_f * decay`. -/
def v2UpdateDecay (inst : Inst) : Inst :=
  { inst with current := { inst.current with
      vWALL_f := inst.base.vWALL_f * inst.decay } }

/-- `v2_apply_preset`: an index outside `[0, 5]` returns with no change;
otherwise scale the preset into `base`, copy to `current`, apply input
gain / reverb level / decay scaling, and reinitialize the work area to
`next_pow2(work_size)` elements (capped at 65536), zeroing that prefix
of the instance's persistent buffer.  The size computation
`next_pow2(p->work_size)` with the `WORK_MAX_SIZE` cap is split out as
`v2WorkSize`. -/
def v2WorkSize (p : PsxPreset) : ℕ :=
  let ws0 := nextPow2 p.work_size
  if ws0 > 65536 then 65536 else ws0

/-- `v2_apply_preset`, body: scale, derive `current`, reinitialize the
work area to `v2WorkSize` elements. -/
def v2ApplyPreset (inst : Inst) (idx : ℤ) : Inst :=
  if h : idx < 0 ∨ 6 ≤ idx then inst
  else
    let p := gPresets ⟨idx.toNat, by omega⟩
    let b := scalePreset p
    let inScale : ℚ := inst.input_gain * 2.0
    let outScale : ℚ := inst.reverb_level * 4.0
    let cur1 := { b with
      vLIN_f := b.vLIN_f * inScale,
      vRIN_f := b.vRIN_f * inScale,
      vLOUT_f := b.vLOUT_f * outScale,
      vROUT_f := b.vROUT_f * outScale }
    let cur2 := { cur1 with vWALL_f := b.vWALL_f * inst.decay }
    let ws := v2WorkSize p
    { inst with
      preset_idx := idx, base := b, current := cur2,
      work := { buf := fun j => if j < ws then 0 else inst.work.buf j,
                size_mask := ws - 1, base := 0 } }

/-- The instance as initialized by `v2_create_instance` before the
default preset is applied: `calloc` zeroes everything, then the defaults
preset 4 (Hall), decay 0.8, mix 0.35, input gain 0.5, reverb level 0.5
are stored and the halfband filters are zeroed. -/
def v2InstInit : Inst :=
  { preset_idx := 4, decay := 0.8, mix := 0.35,
    input_gain := 0.5, reverb_level := 0.5,
    current := scaledPresetZero, base := scaledPresetZero,
    work := { buf := fun _ => 0, size_mask := 0, base := 0 },
    down_l := hbInit, down_r := hbInit, up_l := hbInit, up_r := hbInit }

/-- The instance returned by `v2_create_instance`: the zero-initialized
instance with the default preset applied. -/
def v2Default : Inst :=
  v2ApplyPreset v2InstInit 4

/-- The four non-preset control keys recognized by `v2_set_param`. -/
inductive CtrlKey
  | decay
  | mix
  | inputGain
  | reverbLevel
deriving DecidableEq

/-- The non-preset, non-state branches of `v2_set_param`: clamp the
parsed value to `[0, 1]`, store the control, and recompute only the
derived coefficients of that control in `current`. -/
def v2SetParamCtrl (inst : Inst) (k : CtrlKey) (v : ℚ) : Inst :=
  match k with
  | .decay => v2UpdateDecay { inst with decay := clampF v 0 1 }
  | .mix => { inst with mix := clampF v 0 1 }
  | .inputGain =>
      let i1 := { inst with input_gain := clampF v 0 1 }
      let inScale : ℚ := i1.input_gain * 2.0
      { i1 with current := { i1.current with
          vLIN_f := i1.base.vLIN_f * inScale,
          vRIN_f := i1.base.vRIN_f * inScale } }
  | .reverbLevel =>
      let i1 := { inst with reverb_level := clampF v 0 1 }
      let outScale : ℚ := i1.reverb_level * 4.0
      { i1 with current := { i1.current with
          vLOUT_f := i1.base.vLOUT_f * outScale,
          vROUT_f := i1.base.vROUT_f * outScale } }

/-- The "preset" branch of `v2_set_param`: after integer conversion of
the value string, apply the preset only when the index is in `[0, 5]`;
otherwise do nothing. -/
def v2SetParamPreset (inst : Inst) (idx : ℤ) : Inst :=
  if 0 ≤ idx ∧ idx < 6 then v2ApplyPreset inst idx else inst

/-- The state JSON object accepted by `v2_set_param("state", ...)`: any
subset of the five keys may be present (`json_get_number` reports a
missing key).  Values are the parsed numbers. -/
structure StateIn where
  preset : Option ℚ
  decay : Option ℚ
  mix : Option ℚ
  input_gain : Option ℚ
  reverb_level : Option ℚ

/-- The state JSON object emitted by `v2_get_param("state")`. -/
structure StateOut where
  preset : ℤ
  decay : ℚ
  mix : ℚ
  input_gain : ℚ
  reverb_level : ℚ
deriving DecidableEq

/-- A full state object, as written by snapshot/restore round trips. -/
def toStateIn (x : StateOut) : StateIn :=
  { preset := some (x.preset : ℚ), decay := some x.decay,
    mix := some x.mix, input_gain := some x.input_gain,
    reverb_level := some x.reverb_level }

/-- One conditional control assignment of the "state" branch:
`if (json_get_number(val, key, &v) == 0) field = clamp_f(v, 0, 1);` —
a present key stores the clamped value, a missing key keeps the field. -/
def optSet (o : Option ℚ) (cur : ℚ) : ℚ :=
  o.elim cur (fun v => clampF v 0 1)

/-- The "state" branch of `v2_set_param`: if a preset key is present, in
range and different from the active preset, record it and remember that
the preset changed; clamp and store every present control (the four
independent conditional assignments of the C code are written as one
record update built from `optSet`); then either apply the (changed)
preset or recompute the derived coefficients of `current` in place. -/
def v2SetState (inst : Inst) (x : StateIn) : Inst :=
  let step1 : Inst × Bool :=
    match x.preset with
    | none => (inst, false)
    | some v =>
        let idx := ratTrunc v
        if 0 ≤ idx ∧ idx < 6 ∧ idx ≠ inst.preset_idx then
          ({ inst with preset_idx := idx }, true)
        else (inst, false)
  let i1 := step1.1
  let changed := step1.2
  let i5 := { i1 with
    decay := optSet x.decay i1.decay,
    mix := optSet x.mix i1.mix,
    input_gain := optSet x.input_gain i1.input_gain,
    reverb_level := optSet x.reverb_level i1.reverb_level }
  if changed then v2ApplyPreset i5 i5.preset_idx
  else
    let i6 := v2UpdateDecay i5
    let inScale : ℚ := i6.input_gain * 2.0
    let i7 := { i6 with current := { i6.current with
        vLIN_f := i6.base.vLIN_f * inScale,
        vRIN_f := i6.base.vRIN_f * inScale } }
    let outScale : ℚ := i7.reverb_level * 4.0
    { i7 with current := { i7.current with
        vLOUT_f := i7.base.vLOUT_f * outScale,
        vROUT_f := i7.base.vROUT_f * outScale } }

/-- The "state" read of `v2_get_param`: preset index as an integer, the
four controls formatted with 4 decimal digits. -/
def v2GetState (inst : Inst) : StateOut :=
  { preset := inst.preset_idx, decay := format4 inst.decay,
    mix := format4 inst.mix, input_gain := format4 inst.input_gain,
    reverb_level := format4 inst.reverb_level }

/- ==========================================================================
   v2 block processing (`v2_process_block`)
   ========================================================================== -/

/-- The interleaved int16 stereo buffer handed to `process_block`,
indexed by sample position (frame `i` occupies indices `2*i` left and
`2*i + 1` right). -/
def AudioBuf : Type := ℕ → ℤ

/-- The int16 conversion of a final output sample:
`(int16_t)(value * 32767.0f)`. -/
def outSample (v : ℚ) : ℤ :=
  ratTrunc (v * 32767)

/-- Write the four samples of frame pair `k` (frames `2k` and `2k + 1`)
back into the interleaved buffer. -/
def writeFrames (buf : AudioBuf) (k : ℕ) (l0 r0 l1 r1 : ℤ) : AudioBuf :=
  fun j =>
    if j = 4 * k then l0
    else if j = 4 * k + 1 then r0
    else if j = 4 * k + 2 then l1
    else if j = 4 * k + 3 then r1
    else buf j

/-- One iteration of the `v2_process_block` loop at frame index `i = 2k`:
decimate, run the same-side and cross-side reflections, the comb bank and
the two allpass stages over the work area, advance it, interpolate back,
mix with the dry signal, clamp and store. -/
def v2Tick (inst : Inst) (buf : AudioBuf) (k : ℕ) : Inst × AudioBuf :=
  let p := inst.current
  let in_l0 : ℚ := (buf (4 * k) : ℚ) / 32768
  let in_r0 : ℚ := (buf (4 * k + 1) : ℚ) / 32768
  let in_l1 : ℚ := (buf (4 * k + 2) : ℚ) / 32768
  let in_r1 : ℚ := (buf (4 * k + 3) : ℚ) / 32768
  let decL := hbDecimate inst.down_l in_l0 in_l1
  let decR := hbDecimate inst.down_r in_r0 in_r1
  let Lin := decL.1 * p.vLIN_f
  let Rin := decR.1 * p.vRIN_f
  let w0 := inst.work
  let lsame_fb := workareaReadRelative w0 p.dLSAME
  let lsame_iir := workareaReadRelative w0 ((p.mLSAME : ℤ) - 1)
  let lsame_out := (Lin + lsame_fb * p.vWALL_f - lsame_iir) * p.vIIR_f + lsame_iir
  let w1 := workareaWriteRelative w0 p.mLSAME lsame_out
  let rsame_fb := workareaReadRelative w1 p.dRSAME
  let rsame_iir := workareaReadRelative w1 ((p.mRSAME : ℤ) - 1)
  let rsame_out := (Rin + rsame_fb * p.vWALL_f - rsame_iir) * p.vIIR_f + rsame_iir
  let w2 := workareaWriteRelative w1 p.mRSAME rsame_out
  let ldiff_fb := workareaReadRelative w2 p.dRDIFF
  let ldiff_iir := workareaReadRelative w2 ((p.mLDIFF : ℤ) - 1)
  let ldiff_out := (Lin + ldiff_fb * p.vWALL_f - ldiff_iir) * p.vIIR_f + ldiff_iir
  let w3 := workareaWriteRelative w2 p.mLDIFF ldiff_out
  let rdiff_fb := workareaReadRelative w3 p.dLDIFF
  let rdiff_iir := workareaReadRelative w3 ((p.mRDIFF : ℤ) - 1)
  let rdiff_out := (Rin + rdiff_fb * p.vWALL_f - rdiff_iir) * p.vIIR_f + rdiff_iir
  let w4 := workareaWriteRelative w3 p.mRDIFF rdiff_out
  let Lout0 := p.vCOMB1_f * workareaReadRelative w4 p.mLCOMB1 +
               p.vCOMB2_f * workareaReadRelative w4 p.mLCOMB2 +
               p.vCOMB3_f * workareaReadRelative w4 p.mLCOMB3 +
               p.vCOMB4_f * workareaReadRelative w4 p.mLCOMB4
  let Rout0 := p.vCOMB1_f * workareaReadRelative w4 p.mRCOMB1 +
               p.vCOMB2_f * workareaReadRelative w4 p.mRCOMB2 +
               p.vCOMB3_f * workareaReadRelative w4 p.mRCOMB3 +
               p.vCOMB4_f * workareaReadRelative w4 p.mRCOMB4
  let lapf1_del := workareaReadRelative w4 ((p.mLAPF1 : ℤ) - (p.dAPF1 : ℤ))
  let Lout1 := Lout0 - p.vAPF1_f * lapf1_del
  let w5 := workareaWriteRelative w4 p.mLAPF1 Lout1
  let Lout2 := Lout1 * p.vAPF1_f + lapf1_del
  let rapf1_del := workareaReadRelative w5 ((p.mRAPF1 : ℤ) - (p.dAPF1 : ℤ))
  let Rout1 := Rout0 - p.vAPF1_f * rapf1_del
  let w6 := workareaWriteRelative w5 p.mRAPF1 Rout1
  let Rout2 := Rout1 * p.vAPF1_f + rapf1_del
  let lapf2_del := workareaReadRelative w6 ((p.mLAPF2 : ℤ) - (p.dAPF2 : ℤ))
  let Lout3 := Lout2 - p.vAPF2_f * lapf2_del
  let w7 := workareaWriteRelative w6 p.mLAPF2 Lout3
  let Lout4 := Lout3 * p.vAPF2_f + lapf2_del
  let rapf2_del := workareaReadRelative w7 ((p.mRAPF2 : ℤ) - (p.dAPF2 : ℤ))
  let Rout3 := Rout2 - p.vAPF2_f * rapf2_del
  let w8 := workareaWriteRelative w7 p.mRAPF2 Rout3
  let Rout4 := Rout3 * p.vAPF2_f + rapf2_del
  let w9 := workareaAdvance w8 1
  let interpL := hbInterpolate inst.up_l (Lout4 * p.vLOUT_f)
  let interpR := hbInterpolate inst.up_r (Rout4 * p.vROUT_f)
  let out_l0 := interpL.1
  let out_l1 := interpL.2.1
  let out_r0 := interpR.1
  let out_r1 := interpR.2.1
  let dryMix := 1 - inst.mix
  let wetMix := inst.mix
  let final_l0 := clampF (in_l0 * dryMix + out_l0 * wetMix) (-1) 1
  let final_r0 := clampF (in_r0 * dryMix + out_r0 * wetMix) (-1) 1
  let final_l1 := clampF (in_l1 * dryMix + out_l1 * wetMix) (-1) 1
  let final_r1 := clampF (in_r1 * dryMix + out_r1 * wetMix) (-1) 1
  ({ inst with
      work := w9, down_l := decL.2, down_r := decR.2,
      up_l := interpL.2.2, up_r := interpR.2.2 },
   writeFrames buf k (outSample final_l0) (outSample final_r0)
     (outSample final_l1) (outSample final_r1))

/-- Run `count` consecutive loop iterations of `v2_process_block`,
starting at frame pair `k`. -/
def v2ProcessTicks : Inst → AudioBuf → ℕ → ℕ → Inst × AudioBuf
  | inst, buf, _, 0 => (inst, buf)
  | inst, buf, k, count + 1 =>
      let r := v2Tick inst buf k
      v2ProcessTicks r.1 r.2 (k + 1) count

/-- `v2_process_block`: the loop `for (i = 0; i < frames; i += 2)` with
the `if (i + 1 >= frames) break;` guard executes exactly `frames / 2`
full iterations. -/
def v2ProcessBlock (inst : Inst) (buf : AudioBuf) (frames : ℕ) : Inst × AudioBuf :=
  v2ProcessTicks inst buf 0 (frames / 2)

/- ==========================================================================
   Spec-side definitions (written from the wording of the specification,
   for refinement comparisons) and claim helpers
   ========================================================================== -/

/-- Modelled from the spec wording of the decay mapping (section 4.4):
`baseWall = max(1e-5, |base.vWALL|)`,
`maxScale = clamp(0.99 / baseWall, 0.5, 10.0)`, a scale interpolating
linearly from 0.5 at decay 0 to 1.0 at decay 0.5 and from 1.0 at decay
0.5 to `maxScale` at decay 1.0, and finally
`current.vWALL = clamp(base.vWALL * scale, -0.995, 0.995)`.
Standard library `max`/`min`/`|.|` are used here, and linear
interpolation is written in the canonical `(1 - t) * a + t * b` form, in
contrast to the source-shaped definitions above. -/
def specDecayVWALL (w d : ℚ) : ℚ :=
  let baseWall := max 1e-5 |w|
  let maxScale := max 0.5 (min 10.0 (0.99 / baseWall))
  let scale :=
    if d ≤ 0.5 then
      let t := d / 0.5
      (1 - t) * 0.5 + t * 1.0
    else
      let t := (d - 0.5) / (1 - 0.5)
      (1 - t) * 1.0 + t * maxScale
  max (-0.995) (min 0.995 (w * scale))

/-- Zero out the `current` coefficients that a v2 control key is meant to
recompute, leaving everything else; two scaled presets agree on all
other fields exactly when their masked forms are equal. -/
def maskCtrl (k : CtrlKey) (p : ScaledPreset) : ScaledPreset :=
  match k with
  | .decay => { p with vWALL_f := 0 }
  | .mix => p
  | .inputGain => { p with vLIN_f := 0, vRIN_f := 0 }
  | .reverbLevel => { p with vLOUT_f := 0, vROUT_f := 0 }

/-- The v1 analogue of `maskCtrl` for the keys of `fx_set_param`. -/
def maskV1Ctrl (k : V1CtrlKey) (p : ScaledPreset) : ScaledPreset :=
  match k with
  | .decay => { p with vWALL_f := 0 }
  | .mix => p
  | .inputGain => { p with vLIN_f := 0, vRIN_f := 0 }
  | .level => { p with vLOUT_f := 0, vROUT_f := 0 }

/-- A control value admissible for an exact state round trip: within the
clamp range and exactly representable with 4 decimal digits. -/
def ctrlExact4 (q : ℚ) : Prop :=
  0 ≤ q ∧ q ≤ 1 ∧ ∃ k : ℤ, q = (k : ℚ) / 10000

/- ==========================================================================
   Helper lemmas
   ========================================================================== -/

/-- The source `clamp_f` agrees with the `max`/`min` form of clamping
whenever the interval is nonempty. -/
theorem clampF_eq_max_min (x lo hi : ℚ) (h : lo ≤ hi) :
    clampF x lo hi = max lo (min hi x) := by
  unfold clampF
  rw [max_def, min_def]
  split_ifs <;> linarith

/-- `clamp_f` lands in the target interval. -/
theorem clampF_mem (x lo hi : ℚ) (h : lo ≤ hi) :
    lo ≤ clampF x lo hi ∧ clampF x lo hi ≤ hi := by
  unfold clampF
  split_ifs with h1 h2 <;> constructor <;> linarith

/-- `clamp_f` is the identity on values already in the interval. -/
theorem clampF_of_mem (x lo hi : ℚ) (h1 : lo ≤ x) (h2 : x ≤ hi) :
    clampF x lo hi = x := by
  unfold clampF
  split_ifs <;> linarith

/-- The source `max_f` is `max`. -/
theorem maxF_eq (a b : ℚ) : maxF a b = max a b := by
  unfold maxF
  rcases le_or_lt a b with h | h
  · rw [if_neg (not_lt.mpr h), max_eq_right h]
  · rw [if_pos h, max_eq_left (le_of_lt h)]

/-- The source `abs_f` is `|.|`. -/
theorem absF_eq (v : ℚ) : absF v = |v| := by
  unfold absF
  rcases lt_or_le v 0 with h | h
  · rw [if_pos h, abs_of_neg h]
  · rw [if_neg (not_lt.mpr h), abs_of_nonneg h]

/-- Convolving with an all-zero coefficient list gives zero, whatever the
history contents and cursor. -/
theorem convolve_zero (s : ℕ → ℚ) (cs : List ℚ) (hz : ∀ c ∈ cs, c = 0) :
    ∀ idx, convolve s cs idx = 0 := by
  induction cs with
  | nil => intro idx; rfl
  | cons c rest ih =>
      intro idx
      have hc : c = 0 := hz c (List.mem_cons_self c rest)
      have hrest : ∀ x ∈ rest, x = 0 := fun x hx => hz x (List.mem_cons_of_mem c hx)
      simp only [convolve, hc, zero_mul, zero_add]
      exact ih hrest _

/-- Truncation toward zero is the identity on integers. -/
theorem ratTrunc_intCast (k : ℤ) : ratTrunc (k : ℚ) = k := by
  unfold ratTrunc
  split_ifs <;> simp

/-- `%.4f` formatting is exact on multiples of `1 / 10000`. -/
theorem format4_exact (q : ℚ) (hk : ∃ k : ℤ, q = (k : ℚ) / 10000) :
    format4 q = q := by
  obtain ⟨k, rfl⟩ := hk
  unfold format4
  rw [div_mul_cancel₀ _ (by norm_num : (10000 : ℚ) ≠ 0)]
  rw [round_intCast]

/-- `writeFrames` leaves every sample outside its four indices alone. -/
theorem writeFrames_untouched (buf : AudioBuf) (k : ℕ) (a b c d : ℤ) (j : ℕ)
    (h : 4 * k + 4 ≤ j) :
    writeFrames buf k a b c d j = buf j := by
  unfold writeFrames
  rw [if_neg (by omega), if_neg (by omega), if_neg (by omega), if_neg (by omega)]

/-- The buffer component of one tick is a `writeFrames` at frame pair `k`. -/
theorem v2Tick_buf (inst : Inst) (buf : AudioBuf) (k : ℕ) :
    ∃ a b c d, (v2Tick inst buf k).2 = writeFrames buf k a b c d :=
  ⟨_, _, _, _, rfl⟩

/-- Loop iterations starting at frame pair `k` never touch buffer samples
at or beyond index `4 * (k + count)`. -/
theorem v2ProcessTicks_untouched (count : ℕ) :
    ∀ (inst : Inst) (buf : AudioBuf) (k j : ℕ), 4 * (k + count) ≤ j →
      (v2ProcessTicks inst buf k count).2 j = buf j := by
  induction count with
  | zero => intro inst buf k j _; rfl
  | succ n ih =>
      intro inst buf k j hj
      show (v2ProcessTicks (v2Tick inst buf k).1 (v2Tick inst buf k).2 (k + 1) n).2 j
          = buf j
      rw [ih _ _ _ _ (by omega)]
      obtain ⟨a, b, c, d, hw⟩ := v2Tick_buf inst buf k
      rw [hw, writeFrames_untouched _ _ _ _ _ _ _ (by omega)]

/-- The wall coefficient of every scaled preset lies in `[-0.995, 0]`:
all six hardware `vWALL` registers are negative and of magnitude at most
`0x6400/0x8000 = 0.78125`. -/
theorem vwall_base_bounds (i : Fin 6) :
    -(0.995 : ℚ) ≤ (scalePreset (gPresets i)).vWALL_f ∧
    (scalePreset (gPresets i)).vWALL_f ≤ 0 := by
  fin_cases i <;>
    · dsimp only [gPresets, scalePreset, coeffToFloat, presetRoom,
        presetStudioSmall, presetStudioMedium, presetStudioLarge,
        presetHall, presetSpaceEcho]
      norm_num

/-- C5: for every decay value in `[0, 1]` and every one of the six
presets, the `current.vWALL` coefficient produced by the decay update
(the v1 `update_decay` and the v2 `v2_update_decay` alike) lies in the
interval `[-0.995, 0.995]`. -/
theorem c5_decay_vwall_stable (i : Fin 6) (d : ℚ) (st : V1State) (inst : Inst)
    (hd0 : 0 ≤ d) (hd1 : d ≤ 1)
    (_hst : st.base = scalePreset (gPresets i))
    (hinst : inst.base = scalePreset (gPresets i))
    (hdec : inst.decay = d) :
    (-(0.995 : ℚ) ≤ (v1UpdateDecay st d).current.vWALL_f ∧
      (v1UpdateDecay st d).current.vWALL_f ≤ 0.995) ∧
    (-(0.995 : ℚ) ≤ (v2UpdateDecay inst).current.vWALL_f ∧
      (v2UpdateDecay inst).current.vWALL_f ≤ 0.995) := by
  constructor
  · unfold v1UpdateDecay
    dsimp only
    exact clampF_mem _ _ _ (by norm_num)
  · unfold v2UpdateDecay
    dsimp only
    rw [hinst, hdec]
    obtain ⟨hw1, hw2⟩ := vwall_base_bounds i
    constructor
    · nlinarith
    · nlinarith

/-- Witness for C5 at the Hall preset with the default decay 0.8. -/
theorem c5_decay_vwall_stable_witness :
    (0 ≤ (0.8 : ℚ)) ∧ ((0.8 : ℚ) ≤ 1) ∧
    v1Default.base = scalePreset (gPresets 4) ∧
    v2Default.base = scalePreset (gPresets 4) ∧
    v2Default.decay = 0.8 ∧
    ((-(0.995 : ℚ) ≤ (v1UpdateDecay v1Default 0.8).current.vWALL_f ∧
        (v1UpdateDecay v1Default 0.8).current.vWALL_f ≤ 0.995) ∧
      (-(0.995 : ℚ) ≤ (v2UpdateDecay v2Default).current.vWALL_f ∧
        (v2UpdateDecay v2Default).current.vWALL_f ≤ 0.995)) := by
  have h1 : v1Default.base = scalePreset (gPresets 4) := rfl
  have h2 : v2Default.base = scalePreset (gPresets 4) := rfl
  have h3 : v2Default.decay = 0.8 := rfl
  exact ⟨by norm_num, by norm_num, h1, h2, h3,
    c5_decay_vwall_stable 4 0.8 v1Default v2Default (by norm_num) (by norm_num)
      h1 h2 h3⟩

/-- C6: a `write_relative` immediately followed by a `read_relative` at
the same offset (base cursor unchanged in between) returns the value
quantized to `1/32768` with truncation toward zero and int16 saturation;
in particular writing 2.0 reads back `32767/32768`. -/
theorem c6_workarea_roundtrip :
    (∀ (wa : WorkArea) (offset : ℤ) (value : ℚ),
      workareaReadRelative (workareaWriteRelative wa offset value) offset
        = int16SatQuant value) ∧
    workareaReadRelative (workareaWriteRelative (workareaInit 64) 5 2) 5
      = 32767 / 32768 := by
  have main : ∀ (wa : WorkArea) (offset : ℤ) (value : ℚ),
      workareaReadRelative (workareaWriteRelative wa offset value) offset
        = int16SatQuant value := by
    intro wa off v
    unfold workareaReadRelative workareaWriteRelative int16SatQuant waIndex
    dsimp only
    rw [if_pos rfl, mul_one_div]
  refine ⟨main, ?_⟩
  rw [main]
  unfold int16SatQuant ratTrunc satInt16
  norm_num

/-- C7: the second output sample of `halfband_interpolate` (the phase-1,
odd-tap polyphase branch) is exactly zero for every input sample and
every filter history state. -/
theorem c7_halfband_phase1_zero (hb : Halfband) (x : ℚ) :
    (hbInterpolate hb x).2.1 = 0 := by
  have hz : ∀ (s : ℕ → ℚ) (idx : ℕ), convolve s gHbPhase1 idx = 0 :=
    fun s idx => convolve_zero s gHbPhase1 (by decide) idx
  simp [hbInterpolate, hz]

/-- C8: with an odd frame count `n`, `v2_process_block` behaves exactly
like processing `n - 1` frames — the final unpaired frame is left in the
buffer unchanged and no engine state is advanced for it — and with
`n = 1` the entire block and all state are unchanged. -/
theorem c8_odd_frame_policy (inst : Inst) (buf : AudioBuf) (n : ℕ)
    (h : Odd n) :
    v2ProcessBlock inst buf n = v2ProcessBlock inst buf (n - 1) ∧
    (v2ProcessBlock inst buf n).2 (2 * (n - 1)) = buf (2 * (n - 1)) ∧
    (v2ProcessBlock inst buf n).2 (2 * (n - 1) + 1) = buf (2 * (n - 1) + 1) ∧
    (n = 1 → v2ProcessBlock inst buf n = (inst, buf)) := by
  obtain ⟨m, hm⟩ := h
  have hdiv : n / 2 = m := by omega
  have hdiv2 : (n - 1) / 2 = m := by omega
  unfold v2ProcessBlock
  rw [hdiv, hdiv2]
  refine ⟨rfl, ?_, ?_, ?_⟩
  · exact v2ProcessTicks_untouched m inst buf 0 _ (by omega)
  · exact v2ProcessTicks_untouched m inst buf 0 _ (by omega)
  · intro h1
    have hm0 : m = 0 := by omega
    subst hm0
    rfl

/-- Witness for C8 at `n = 3` on the default instance and an all-zero
buffer. -/
theorem c8_odd_frame_policy_witness :
    Odd 3 ∧
    (v2ProcessBlock v2Default (fun _ => 0) 3
        = v2ProcessBlock v2Default (fun _ => 0) 2 ∧
      (v2ProcessBlock v2Default (fun _ => 0) 3).2 (2 * (3 - 1))
        = (fun _ => (0 : ℤ)) (2 * (3 - 1)) ∧
      (v2ProcessBlock v2Default (fun _ => 0) 3).2 (2 * (3 - 1) + 1)
        = (fun _ => (0 : ℤ)) (2 * (3 - 1) + 1) ∧
      (3 = 1 → v2ProcessBlock v2Default (fun _ => 0) 3
        = (v2Default, fun _ => 0))) :=
  ⟨⟨1, by norm_num⟩,
    c8_odd_frame_policy v2Default (fun _ => 0) 3 ⟨1, by norm_num⟩⟩

/-- C9: a `set_param` on decay, mix, input gain or reverb level — in the
v2 surface, and likewise the v1 surface with its four control keys —
leaves the preset index, the Work Area and every field of `base`
unchanged, and recomputes only the affected derived coefficients of
`current` (equality after masking exactly those coefficients). -/
theorem c9_ctrl_updates_only_current :
    (∀ (inst : Inst) (k : CtrlKey) (v : ℚ),
      (v2SetParamCtrl inst k v).base = inst.base ∧
      (v2SetParamCtrl inst k v).preset_idx = inst.preset_idx ∧
      (v2SetParamCtrl inst k v).work = inst.work ∧
      maskCtrl k (v2SetParamCtrl inst k v).current = maskCtrl k inst.current) ∧
    (∀ (st : V1State) (k : V1CtrlKey) (v : ℚ),
      (v1SetParamCtrl st k v).base = st.base ∧
      (v1SetParamCtrl st k v).preset_idx = st.preset_idx ∧
      (v1SetParamCtrl st k v).work = st.work ∧
      maskV1Ctrl k (v1SetParamCtrl st k v).current = maskV1Ctrl k st.current) := by
  constructor
  · intro inst k v
    cases k <;> exact ⟨rfl, rfl, rfl, rfl⟩
  · intro st k v
    cases k <;> exact ⟨rfl, rfl, rfl, rfl⟩

/-- C10: a "preset" `set_param` on the v2 surface with an index outside
`[0, 5]` leaves the entire instance state unchanged. -/
theorem c10_invalid_preset_noop (inst : Inst) (idx : ℤ)
    (h : idx < 0 ∨ 6 ≤ idx) :
    v2SetParamPreset inst idx = inst := by
  unfold v2SetParamPreset
  rw [if_neg (by omega)]

/-- Witness for C10 at index 6 on the default instance. -/
theorem c10_invalid_preset_noop_witness :
    ((6 : ℤ) < 0 ∨ 6 ≤ (6 : ℤ)) ∧ v2SetParamPreset v2Default 6 = v2Default :=
  ⟨Or.inr le_rfl, c10_invalid_preset_noop v2Default 6 (Or.inr le_rfl)⟩

/-- The work-area mask set by the v1 `apply_preset` is `v1WorkSize - 1`
of the clamped preset, whatever the prior state. -/
theorem v1ApplyPreset_size (st : V1State) (idx : ℤ) :
    (v1ApplyPreset st idx).work.size_mask
      = v1WorkSize (gPresets ⟨(v1ClampIdx idx).toNat, v1ClampIdx_lt idx⟩) - 1 :=
  rfl

/-- The work-area mask set by `v2_apply_preset` on an in-range index is
`v2WorkSize - 1` of the selected preset, whatever the prior state. -/
theorem v2ApplyPreset_size (inst : Inst) (idx : ℤ) (h : ¬(idx < 0 ∨ 6 ≤ idx)) :
    (v2ApplyPreset inst idx).work.size_mask
      = v2WorkSize (gPresets ⟨idx.toNat, by omega⟩) - 1 := by
  unfold v2ApplyPreset
  rw [dif_neg h]

/-- C2 (amended): for each of the six presets, the Work Area size after
a preset application is a power of two and at most 65536 in both
variants; it is at least the declared `work_size` for `v2_apply_preset`
(which feeds the raw field to `next_pow2`), but for the v1
`apply_preset` (which first divides by `sizeof(int16_t)`) it is only at
least `work_size / 2`. -/
theorem c2_work_size_amended (i : Fin 6) (st : V1State) (inst : Inst) :
    (isPow2 ((v1ApplyPreset st ((i : ℕ) : ℤ)).work.size_mask + 1) ∧
      (gPresets i).work_size / 2 ≤ (v1ApplyPreset st ((i : ℕ) : ℤ)).work.size_mask + 1 ∧
      (v1ApplyPreset st ((i : ℕ) : ℤ)).work.size_mask + 1 ≤ 65536) ∧
    (isPow2 ((v2ApplyPreset inst ((i : ℕ) : ℤ)).work.size_mask + 1) ∧
      (gPresets i).work_size ≤ (v2ApplyPreset inst ((i : ℕ) : ℤ)).work.size_mask + 1 ∧
      (v2ApplyPreset inst ((i : ℕ) : ℤ)).work.size_mask + 1 ≤ 65536) := by
  rw [v1ApplyPreset_size st ((i : ℕ) : ℤ), v2ApplyPreset_size inst ((i : ℕ) : ℤ)
    (by omega)]
  fin_cases i <;> decide

/-- C2 counterexample: for the Room preset, the v1 `apply_preset` gives
a Work Area of 8192 elements, strictly smaller than the declared
`work_size` field 9920 (`0x26C0`). -/
theorem c2_work_size_cex :
    (v1ApplyPreset v1Default 0).work.size_mask + 1 = 8192 ∧
    (gPresets 0).work_size = 9920 ∧
    ¬ ((gPresets 0).work_size ≤ (v1ApplyPreset v1Default 0).work.size_mask + 1) := by
  rw [v1ApplyPreset_size v1Default 0]
  decide

/-- C3 (amended): the v1 `apply_preset` clamps every integer index to
`[0, 5]` and applies that preset (its `base` is the scaled clamped
preset), whereas the v2 apply path (`v2_apply_preset`, and `v2_set_param`
with key "preset") ignores an out-of-range index: it returns with the
instance unchanged rather than clamping. -/
theorem c3_preset_clamp_amended :
    (∀ (st : V1State) (idx : ℤ),
      (v1ApplyPreset st idx).preset_idx = v1ClampIdx idx ∧
      0 ≤ v1ClampIdx idx ∧ v1ClampIdx idx ≤ 5 ∧
      (v1ApplyPreset st idx).base
        = scalePreset (gPresets ⟨(v1ClampIdx idx).toNat, v1ClampIdx_lt idx⟩)) ∧
    (∀ (inst : Inst) (idx : ℤ), idx < 0 ∨ 6 ≤ idx →
      v2SetParamPreset inst idx = inst ∧ v2ApplyPreset inst idx = inst) := by
  constructor
  · intro st idx
    refine ⟨rfl, ?_, ?_, rfl⟩ <;> (unfold v1ClampIdx; split_ifs <;> omega)
  · intro inst idx h
    constructor
    · unfold v2SetParamPreset
      rw [if_neg (by omega)]
    · unfold v2ApplyPreset
      rw [dif_pos (by omega)]

/-- Witness for C3 (amended) at index 9 (v1) and index 7 (v2). -/
theorem c3_preset_clamp_amended_witness :
    ((v1ApplyPreset v1Default 9).preset_idx = v1ClampIdx 9 ∧
      0 ≤ v1ClampIdx 9 ∧ v1ClampIdx 9 ≤ 5 ∧
      (v1ApplyPreset v1Default 9).base
        = scalePreset (gPresets ⟨(v1ClampIdx 9).toNat, v1ClampIdx_lt 9⟩)) ∧
    ((7 : ℤ) < 0 ∨ 6 ≤ (7 : ℤ)) ∧
    (v2SetParamPreset v2Default 7 = v2Default ∧ v2ApplyPreset v2Default 7 = v2Default) :=
  ⟨c3_preset_clamp_amended.1 v1Default 9, Or.inr (by norm_num),
    c3_preset_clamp_amended.2 v2Default 7 (Or.inr (by norm_num))⟩

/-- C3 counterexample: applying index 6 through the v2 path does not
clamp to 5 — it leaves the default instance (preset 4) unchanged, and in
particular differs from actually applying preset 5. -/
theorem c3_preset_clamp_cex :
    (v2ApplyPreset v2Default 6).preset_idx = 4 ∧
    (v2ApplyPreset v2Default 5).preset_idx = 5 ∧
    v2ApplyPreset v2Default 6 ≠ v2ApplyPreset v2Default 5 := by
  have h6 : (v2ApplyPreset v2Default 6).preset_idx = 4 := by
    unfold v2ApplyPreset
    rw [dif_pos (show (6 : ℤ) < 0 ∨ 6 ≤ (6 : ℤ) by norm_num)]
    rfl
  have h5 : (v2ApplyPreset v2Default 5).preset_idx = 5 := by
    unfold v2ApplyPreset
    rw [dif_neg (show ¬((5 : ℤ) < 0 ∨ 6 ≤ (5 : ℤ)) by norm_num)]
  refine ⟨h6, h5, fun hcontra => ?_⟩
  rw [hcontra, h5] at h6
  exact absurd h6 (by norm_num)

/-- C1 (amended): the v1 decay update `update_decay` realizes exactly
the specified mapping — `current.vWALL = clamp(base.vWALL * scale,
-0.995, 0.995)` with the two-segment linear interpolation of the scale
through `maxScale = clamp(0.99 / max(1e-5, |base.vWALL|), 0.5, 10.0)` —
for every decay value; the v2 decay update `v2_update_decay` instead
sets `current.vWALL = base.vWALL * decay`, with no interpolation and no
clamping. -/
theorem c1_decay_mapping_amended :
    (∀ (st : V1State) (d : ℚ),
      (v1UpdateDecay st d).current.vWALL_f = specDecayVWALL st.base.vWALL_f d) ∧
    (∀ inst : Inst,
      (v2UpdateDecay inst).current.vWALL_f = inst.base.vWALL_f * inst.decay) := by
  constructor
  · intro st d
    unfold v1UpdateDecay specDecayVWALL
    dsimp only
    rw [maxF_eq, absF_eq]
    rw [clampF_eq_max_min _ (-0.995) 0.995 (by norm_num),
        clampF_eq_max_min _ 0.5 10.0 (by norm_num)]
    split_ifs <;> ring_nf
  · intro inst
    rfl

/-- C1 counterexample: on the default v2 instance (Hall preset,
`base.vWALL = -1/2`, decay 0.8) the v2 decay update yields `-2/5`,
whereas the specified mapping yields `-397/500 = -0.794`. -/
theorem c1_decay_mapping_cex :
    (v2UpdateDecay v2Default).current.vWALL_f = -(2/5 : ℚ) ∧
    specDecayVWALL v2Default.base.vWALL_f v2Default.decay = -(397/500 : ℚ) ∧
    (-(2/5 : ℚ)) ≠ -(397/500 : ℚ) := by
  have hbase : v2Default.base.vWALL_f = -(1/2 : ℚ) := by
    have h : v2Default.base = scalePreset (gPresets 4) := rfl
    rw [h]
    dsimp only [scalePreset, gPresets, presetHall, coeffToFloat]
    norm_num
  have hdecay : v2Default.decay = (0.8 : ℚ) := rfl
  have h1 : (v2UpdateDecay v2Default).current.vWALL_f
      = v2Default.base.vWALL_f * v2Default.decay := rfl
  refine ⟨?_, ?_, by norm_num⟩
  · rw [h1, hbase, hdecay]; norm_num
  · rw [show specDecayVWALL v2Default.base.vWALL_f v2Default.decay
        = specDecayVWALL (-(1/2 : ℚ)) 0.8 by rw [hbase, hdecay]]
    unfold specDecayVWALL
    norm_num [abs_of_neg, max_def, min_def]

/-- `v2_apply_preset` never touches the stored decay control. -/
theorem v2ApplyPreset_decay (inst : Inst) (idx : ℤ) :
    (v2ApplyPreset inst idx).decay = inst.decay := by
  unfold v2ApplyPreset; split <;> rfl

/-- `v2_apply_preset` never touches the stored mix control. -/
theorem v2ApplyPreset_mix (inst : Inst) (idx : ℤ) :
    (v2ApplyPreset inst idx).mix = inst.mix := by
  unfold v2ApplyPreset; split <;> rfl

/-- `v2_apply_preset` never touches the stored input-gain control. -/
theorem v2ApplyPreset_input_gain (inst : Inst) (idx : ℤ) :
    (v2ApplyPreset inst idx).input_gain = inst.input_gain := by
  unfold v2ApplyPreset; split <;> rfl

/-- `v2_apply_preset` never touches the stored reverb-level control. -/
theorem v2ApplyPreset_reverb_level (inst : Inst) (idx : ℤ) :
    (v2ApplyPreset inst idx).reverb_level = inst.reverb_level := by
  unfold v2ApplyPreset; split <;> rfl

/-- The preset index after `v2_apply_preset`: unchanged for an
out-of-range index, the requested index otherwise. -/
theorem v2ApplyPreset_preset_idx_ite (inst : Inst) (idx : ℤ) :
    (v2ApplyPreset inst idx).preset_idx
      = if idx < 0 ∨ 6 ≤ idx then inst.preset_idx else idx := by
  unfold v2ApplyPreset; split <;> simp_all

/-- The four control values after a "state" write are exactly the
conditional clamped assignments of the present keys, in every branch
(preset changed or not). -/
theorem v2SetState_step1_decay (inst : Inst) (x : StateIn) :
    (v2SetState inst x).decay = optSet x.decay inst.decay ∧
    (v2SetState inst x).mix = optSet x.mix inst.mix ∧
    (v2SetState inst x).input_gain = optSet x.input_gain inst.input_gain ∧
    (v2SetState inst x).reverb_level = optSet x.reverb_level inst.reverb_level := by
  unfold v2SetState
  dsimp only
  cases hx : x.preset <;>
    · try dsimp only
      try split_ifs
      all_goals
        simp [v2ApplyPreset_decay, v2ApplyPreset_mix, v2ApplyPreset_input_gain,
          v2ApplyPreset_reverb_level, v2UpdateDecay]

/-- The preset index after a "state" write carrying an in-range preset
value is that value (whether or not it differs from the active one). -/
theorem v2SetState_preset (inst : Inst) (x : StateIn) (v : ℚ)
    (hx : x.preset = some v) (h0 : 0 ≤ ratTrunc v) (h6 : ratTrunc v < 6) :
    (v2SetState inst x).preset_idx = ratTrunc v := by
  unfold v2SetState
  rw [hx]
  dsimp only
  by_cases hne : ratTrunc v = inst.preset_idx
  · rw [if_neg (by simp [hne])]
    dsimp only
    split_ifs <;> simp [v2UpdateDecay, hne.symm]
  · rw [if_pos (show 0 ≤ ratTrunc v ∧ ratTrunc v < 6 ∧ ratTrunc v ≠ inst.preset_idx
        from ⟨h0, h6, hne⟩)]
    try dsimp only
    rw [if_pos (show (true = true) from rfl)]
    simp only [v2ApplyPreset_preset_idx_ite]
    try dsimp only
    rw [if_neg (show ¬(ratTrunc v < 0 ∨ 6 ≤ ratTrunc v) by omega)]

/-- C4 (amended): `set_param("state", X)` followed by
`get_param("state")` returns X for every valid X whose preset lies in
`[0, 5]` and whose four controls lie in `[0, 1]` *and* are exactly
representable with 4 decimal digits — the `%.4f` formatting of the read
rounds every control to 4 decimal digits, so only such values round
trip exactly. -/
theorem c4_state_roundtrip_amended (inst : Inst) (x : StateOut)
    (hp0 : 0 ≤ x.preset) (hp6 : x.preset < 6)
    (hd : ctrlExact4 x.decay) (hm : ctrlExact4 x.mix)
    (hg : ctrlExact4 x.input_gain) (hr : ctrlExact4 x.reverb_level) :
    v2GetState (v2SetState inst (toStateIn x)) = x := by
  obtain ⟨xp, xd, xm, xg, xr⟩ := x
  obtain ⟨hd0, hd1, hdk⟩ := hd
  obtain ⟨hm0, hm1, hmk⟩ := hm
  obtain ⟨hg0, hg1, hgk⟩ := hg
  obtain ⟨hr0, hr1, hrk⟩ := hr
  have hrt : ratTrunc ((xp : ℚ)) = xp := ratTrunc_intCast _
  have hp := v2SetState_preset inst (toStateIn ⟨xp, xd, xm, xg, xr⟩) (xp : ℚ) rfl
    (by rw [hrt]; exact hp0) (by rw [hrt]; exact hp6)
  rw [hrt] at hp
  obtain ⟨hc1, hc2, hc3, hc4⟩ :=
    v2SetState_step1_decay inst (toStateIn ⟨xp, xd, xm, xg, xr⟩)
  unfold v2GetState
  simp only [StateOut.mk.injEq]
  refine ⟨hp, ?_, ?_, ?_, ?_⟩
  · rw [hc1]
    dsimp only [toStateIn, optSet, Option.elim]
    rw [clampF_of_mem _ _ _ hd0 hd1]
    exact format4_exact _ hdk
  · rw [hc2]
    dsimp only [toStateIn, optSet, Option.elim]
    rw [clampF_of_mem _ _ _ hm0 hm1]
    exact format4_exact _ hmk
  · rw [hc3]
    dsimp only [toStateIn, optSet, Option.elim]
    rw [clampF_of_mem _ _ _ hg0 hg1]
    exact format4_exact _ hgk
  · rw [hc4]
    dsimp only [toStateIn, optSet, Option.elim]
    rw [clampF_of_mem _ _ _ hr0 hr1]
    exact format4_exact _ hrk

/-- Witness for C4 (amended): a full state write of preset 3 with
4-digit controls round trips on the default instance. -/
theorem c4_state_roundtrip_amended_witness :
    (0 ≤ (3 : ℤ)) ∧ ((3 : ℤ) < 6) ∧ ctrlExact4 0.8 ∧ ctrlExact4 0.35 ∧
    ctrlExact4 0.5 ∧
    v2GetState (v2SetState v2Default (toStateIn ⟨3, 0.8, 0.35, 0.5, 0.5⟩))
      = (⟨3, 0.8, 0.35, 0.5, 0.5⟩ : StateOut) := by
  have h1 : ctrlExact4 (0.8 : ℚ) := ⟨by norm_num, by norm_num, 8000, by norm_num⟩
  have h2 : ctrlExact4 (0.35 : ℚ) := ⟨by norm_num, by norm_num, 3500, by norm_num⟩
  have h3 : ctrlExact4 (0.5 : ℚ) := ⟨by norm_num, by norm_num, 5000, by norm_num⟩
  exact ⟨by norm_num, by norm_num, h1, h2, h3,
    c4_state_roundtrip_amended v2Default ⟨3, 0.8, 0.35, 0.5, 0.5⟩
      (by norm_num) (by norm_num) h1 h2 h3 h3⟩

/-- C4 counterexample: the valid state object with preset 4 and decay
0.00012 (within `[0, 1]`) does not round trip — the read returns decay
0.0001 after `%.4f` formatting. -/
theorem c4_state_roundtrip_cex :
    v2GetState (v2SetState v2Default (toStateIn ⟨4, 0.00012, 0.35, 0.5, 0.5⟩))
      ≠ (⟨4, 0.00012, 0.35, 0.5, 0.5⟩ : StateOut) := by
  intro hcontra
  have hd := congrArg StateOut.decay hcontra
  have hc := (v2SetState_step1_decay v2Default
    (toStateIn ⟨4, 0.00012, 0.35, 0.5, 0.5⟩)).1
  have he : (v2GetState (v2SetState v2Default
      (toStateIn ⟨4, 0.00012, 0.35, 0.5, 0.5⟩))).decay
      = format4 (clampF 0.00012 0 1) := by
    show format4 ((v2SetState v2Default
      (toStateIn ⟨4, 0.00012, 0.35, 0.5, 0.5⟩)).decay) = _
    rw [hc]
    rfl
  rw [he] at hd
  rw [clampF_of_mem _ _ _ (by norm_num) (by norm_num)] at hd
  unfold format4 at hd
  rw [round_eq] at hd
  norm_num at hd
